import Mathlib

/-!
Shallow embedding of the Polymarket market-making bot.

Part 1 embeds the order-book analyzer of `src/slippage.py`
(`get_orderbook`, `_calculate_price_pressure`, `calculate_metrics`,
`is_market_favorable`).  Part 2 embeds the trading bot of `src/reward.py`
(`process_shares_size`, `order_pusher`, `cancel_order`, `update_prices`,
`main_loop`).

Modelling conventions:
* prices and sizes are exact rationals;
* the float value `inf` (used for `volume_imbalance` when the near-ask
  volume is zero) is modelled by `Option` with `none` standing for infinity,
  and each comparison the source performs on it is a separate function that
  mirrors the float comparison semantics;
* pandas `sort_values` and Python `sorted` are modelled by the stable
  `List.insertionSort`;
* Python exceptions that a source `try` block turns into a `None` result or
  an error return are modelled by `Option`;
* network calls made during one cycle of `main_loop` are inputs chosen by an
  environment record (`CycleEnv`), one record per cycle;
* `time.time()` is modelled by an integer clock that starts at the process
  start time `t0` and advances one second per cycle (the loop sleeps 1s).
-/

namespace PolymarketMM

/- The Batteries rational-number operations are irreducible by default;
making them semireducible locally lets concrete runs of the model be
evaluated by Lean during proofs. -/
attribute [local semireducible] Rat.add Rat.mul Rat.sub Rat.inv Rat.ofScientific

inductive Side where
  | bid
  | ask
deriving DecidableEq, Repr

def Side.isBid : Side → Bool
  | .bid => true
  | .ask => false

def Side.isAsk : Side → Bool
  | .bid => false
  | .ask => true

/-- One row of the combined order-book data frame built by
`OrderBookAnalyzer.get_orderbook`: columns `price`, `size`, `type`. -/
structure Row where
  price : ℚ
  size : ℚ
  side : Side
deriving DecidableEq, Repr

/-- A row together with the `cumulative_size` column. -/
structure BookRow where
  price : ℚ
  size : ℚ
  side : Side
  cumulative_size : ℚ
deriving DecidableEq, Repr

def BookRow.toRow (r : BookRow) : Row := ⟨r.price, r.size, r.side⟩

/-- The `groupby('type')['size'].cumsum()` column: a running sum per side,
taken in the order the rows appear in the (already sorted) frame. -/
def addCum : List Row → ℚ → ℚ → List BookRow
  | [], _, _ => []
  | r :: rest, cb, ca =>
    match r.side with
    | Side.bid => ⟨r.price, r.size, Side.bid, cb + r.size⟩ :: addCum rest (cb + r.size) ca
    | Side.ask => ⟨r.price, r.size, Side.ask, ca + r.size⟩ :: addCum rest cb (ca + r.size)

/-- `OrderBookAnalyzer.get_orderbook`: tag raw levels with their side,
concatenate, sort ascending by price, then add the per-side cumulative
size column in frame order. -/
def get_orderbook (bids asks : List (ℚ × ℚ)) : List BookRow :=
  let df := bids.map (fun p => Row.mk p.1 p.2 Side.bid)
    ++ asks.map (fun p => Row.mk p.1 p.2 Side.ask)
  addCum (List.insertionSort (fun a b => a.price ≤ b.price) df) 0 0

/-- The sorted frame without the cumulative column, as consumed by
`calculate_metrics` (which only reads `price`, `size` and `type`). -/
def snapshot (bids asks : List (ℚ × ℚ)) : List Row :=
  (get_orderbook bids asks).map BookRow.toRow

/-- Constructor parameters of `OrderBookAnalyzer`. -/
structure AnalyzerConfig where
  imbalance_threshold : ℚ
  volume_threshold : ℚ
  price_levels : ℕ
  spread_multiplier : ℚ
deriving DecidableEq, Repr

/-- The defaults: `imbalance_threshold=3.0`, `volume_threshold=0.4`,
`price_levels=3`, `spread_multiplier=1.5`. -/
def defaultConfig : AnalyzerConfig := ⟨3, 2/5, 3, 3/2⟩

def sumSizes (l : List Row) : ℚ := l.foldl (fun a r => a + r.size) 0

/-- The accumulation loop of `_calculate_price_pressure`: for consecutive
volumes `(a, b)` at 1-based pair index `i`, add `(a / b) * (1 / i)` when
`b > 0`. -/
def pressureAux : List ℚ → ℕ → ℚ
  | a :: b :: rest, i => (if 0 < b then (a / b) * (1 / (i : ℚ)) else 0) + pressureAux (b :: rest) (i + 1)
  | _, _ => 0

/-- `OrderBookAnalyzer._calculate_price_pressure`: returns `0.0` when the
side has fewer than `price_levels` rows; otherwise sorts the side by price
(ascending flag as passed by the caller), takes the first `price_levels`
sizes, accumulates the decayed consecutive ratios and divides by
`price_levels - 1`. -/
def price_pressure (cfg : AnalyzerConfig) (rows : List Row) (ascending : Bool) : ℚ :=
  if rows.length < cfg.price_levels then 0
  else
    let sorted := if ascending then List.insertionSort (fun a b : Row => a.price ≤ b.price) rows
      else List.insertionSort (fun a b : Row => b.price ≤ a.price) rows
    let volumes := (sorted.map Row.size).take cfg.price_levels
    pressureAux volumes 1 / ((cfg.price_levels : ℚ) - 1)

/-- The dictionary returned by `OrderBookAnalyzer.calculate_metrics`
(without the timestamp).  `volume_imbalance = none` stands for the float
`inf` that the source stores when the near-ask volume is not positive. -/
structure Metrics where
  spread : ℚ
  mid_price : ℚ
  volume_imbalance : Option ℚ
  bid_pressure : ℚ
  ask_pressure : ℚ
  best_bid_concentration : ℚ
  best_ask_concentration : ℚ
  best_bid_price : ℚ
  best_ask_price : ℚ
  bid_volume : ℚ
  ask_volume : ℚ
deriving DecidableEq, Repr

def listMax (x : ℚ) (xs : List ℚ) : ℚ := xs.foldl max x

def listMin (x : ℚ) (xs : List ℚ) : ℚ := xs.foldl min x

/-- `OrderBookAnalyzer.calculate_metrics` on a data frame `df` (a list of
rows in frame order).  The bid and ask sub-frames keep the frame order, so
`bids.iloc[0]` is the first bid row of `df` and `asks.iloc[0]` the first ask
row of `df`.  An empty side makes the pandas aggregations produce `NaN`
metrics (and the enclosing `try` of every caller discards them); that case
is modelled as `none`. -/
def calculate_metrics (cfg : AnalyzerConfig) (df : List Row) : Option Metrics :=
  let bids := df.filter (fun r => r.side.isBid)
  let asks := df.filter (fun r => r.side.isAsk)
  match bids, asks with
  | bh :: bt, ah :: tailA =>
    let best_bid := listMax bh.price (bt.map Row.price)
    let best_ask := listMin ah.price (tailA.map Row.price)
    let spread := best_ask - best_bid
    let mid_price := (best_ask + best_bid) / 2
    let thr := spread * cfg.spread_multiplier
    let near_bids := bids.filter (fun r => best_bid - thr ≤ r.price)
    let near_asks := asks.filter (fun r => r.price ≤ best_ask + thr)
    let bid_volume := sumSizes near_bids
    let ask_volume := sumSizes near_asks
    let volume_imbalance := if 0 < ask_volume then some (bid_volume / ask_volume) else none
    let bid_pressure := price_pressure cfg bids false
    let ask_pressure := price_pressure cfg asks true
    let best_bid_concentration := if 0 < bid_volume then bh.size / bid_volume else 0
    let best_ask_concentration := if 0 < ask_volume then ah.size / ask_volume else 0
    some ⟨spread, mid_price, volume_imbalance, bid_pressure, ask_pressure,
      best_bid_concentration, best_ask_concentration, best_bid, best_ask,
      bid_volume, ask_volume⟩
  | _, _ => none

/-- `volume_imbalance > x` with `none` meaning `inf` (always greater). -/
def imbGT (v : Option ℚ) (x : ℚ) : Bool :=
  match v with
  | none => true
  | some q => decide (x < q)

/-- `volume_imbalance < x` with `none` meaning `inf` (never smaller). -/
def imbLT (v : Option ℚ) (x : ℚ) : Bool :=
  match v with
  | none => false
  | some q => decide (q < x)

/-- `lo <= volume_imbalance <= hi`; false for `inf`. -/
def imbBetween (v : Option ℚ) (lo hi : ℚ) : Bool :=
  match v with
  | none => false
  | some q => decide (lo ≤ q) && decide (q ≤ hi)

/-- `abs(volume_imbalance - 1) > x`; true for `inf`. -/
def imbAbsSub1GT (v : Option ℚ) (x : ℚ) : Bool :=
  match v with
  | none => true
  | some q => decide (x < |q - 1|)

/-- The reason strings returned by `is_market_favorable`, as a label type:
`strongBuyPressure` is the source string for strong buy pressure,
`balancedBuyPressure` for a balanced market with buy pressure,
`strongImbalanceTightSpread` for a strong buyer imbalance with tight
spread, `wideSpreadImbalance` for a wide spread with imbalance,
`strongSellPressure` for strong sell pressure, `neutral` for neutral
conditions, and `analysisError` for the `except` branch. -/
inductive Reason where
  | strongBuyPressure
  | balancedBuyPressure
  | strongImbalanceTightSpread
  | wideSpreadImbalance
  | strongSellPressure
  | neutral
  | analysisError
deriving DecidableEq, Repr

/-- The rule cascade of `OrderBookAnalyzer.is_market_favorable`, evaluated
top to bottom on the computed metrics; each source rule that is a nested
`if` returns only when both tests hold and otherwise falls through to the
next rule, so it is modelled as the conjunction of its tests. -/
def classify (cfg : AnalyzerConfig) (m : Metrics) : Bool × Reason :=
  if imbGT m.volume_imbalance cfg.imbalance_threshold &&
      (decide ((0.7 : ℚ) < m.best_bid_concentration) || decide (cfg.volume_threshold < m.bid_pressure)) then
    (true, Reason.strongBuyPressure)
  else if decide (m.spread < (0.02 : ℚ)) && imbBetween m.volume_imbalance 0.8 1.2 &&
      decide (cfg.volume_threshold < m.bid_pressure) then
    (true, Reason.balancedBuyPressure)
  else if imbGT m.volume_imbalance 1.5 && decide (m.spread < (0.015 : ℚ)) then
    (true, Reason.strongImbalanceTightSpread)
  else if decide ((0.02 : ℚ) < m.spread) && imbAbsSub1GT m.volume_imbalance 0.5 then
    (false, Reason.wideSpreadImbalance)
  else if imbLT m.volume_imbalance (1 / cfg.imbalance_threshold) &&
      (decide ((0.7 : ℚ) < m.best_ask_concentration) || decide (cfg.volume_threshold < m.ask_pressure)) then
    (false, Reason.strongSellPressure)
  else
    (false, Reason.neutral)

/-- `OrderBookAnalyzer.is_market_favorable`: computes the metrics and runs
the cascade; a failure during metric computation is caught and returned as
an unfavorable verdict with an error reason. -/
def is_market_favorable (cfg : AnalyzerConfig) (df : List Row) : Bool × Reason :=
  match calculate_metrics cfg df with
  | none => (false, Reason.analysisError)
  | some m => classify cfg m

/-! Part 2: the trading bot of `src/reward.py`. -/

/-- The two quote sides, as selected by the `side` string of
`order_pusher` and `cancel_order`. -/
inductive QSide where
  | ask
  | bid
deriving DecidableEq, Repr

/-- The mutable trading state of `TradingBot` (the fields set by
`_init_trading_state` that the main loop reads and writes).  `act_price`
is an `Option` because `get_last_trade_price` returns `None` on failure. -/
structure BotState where
  ask_price : ℚ
  bid_price : ℚ
  order_id_ask : String
  order_id_bid : String
  is_position : Bool
  act_price : Option ℚ
deriving DecidableEq, Repr

/-- `TradingBot._init_trading_state`: prices 0, empty order ids, no
position, `act_price = 0`. -/
def initState : BotState := ⟨0, 0, "", "", false, some 0⟩

def getOrderId (s : BotState) : QSide → String
  | .ask => s.order_id_ask
  | .bid => s.order_id_bid

def setOrderId (s : BotState) : QSide → String → BotState
  | .ask, oid => { s with order_id_ask := oid }
  | .bid, oid => { s with order_id_bid := oid }

/-- Observable actions of one loop cycle: the Telegram notifications and
log lines the bot emits, tagged with the data relevant to the claims. -/
inductive Event where
  | heartbeat (t : ℤ)
  | unfavorable
  | priceChange (oldP newP : Option ℚ)
  | cancelOk (side : QSide) (oid : String)
  | cancelErr (side : QSide)
  | placed (side : QSide) (oid : String)
  | placeErr (side : QSide)
deriving DecidableEq, Repr

/-- The network responses consumed by one cycle of `main_loop`:
`price1` is the `get_last_trade_price` result stored into `act_price`,
`favorable` the `get_market_status` verdict, `price2` the second
`get_last_trade_price` call of the favorable branch, `book` the
`get_orderbook` response used by `update_prices` (`none` when the call
fails or returns a falsy value), `placeAsk`/`placeBid` the outcome of each
`order_pusher` call (`some oid` when the order is posted and an id
extracted, `none` when any exception was caught), and
`cancelAskOk`/`cancelBidOk` whether each `client.cancel` call succeeds. -/
structure CycleEnv where
  price1 : Option ℚ
  favorable : Bool
  price2 : Option ℚ
  book : Option (List (ℚ × ℚ) × List (ℚ × ℚ))
  placeAsk : Option String
  placeBid : Option String
  cancelAskOk : Bool
  cancelBidOk : Bool
deriving DecidableEq, Repr

/-- Round half to even at the fourth decimal, the semantics of Python
`round(x, 4)` on an exact value. -/
def roundHalfEven (q : ℚ) : ℤ :=
  if q - ⌊q⌋ < 1/2 then ⌊q⌋
  else if 1/2 < q - ⌊q⌋ then ⌊q⌋ + 1
  else if Even ⌊q⌋ then ⌊q⌋ else ⌊q⌋ + 1

def round4 (q : ℚ) : ℚ := (roundHalfEven (q * 10000) : ℚ) / 10000

/-- Python `int()` on a rational: truncation toward zero. -/
def pyInt (q : ℚ) : ℤ := if 0 ≤ q then ⌊q⌋ else ⌈q⌉

/-- `TradingBot.process_shares_size`:
`int(size / (float(get_last_trade_price()) + spread_slip))`.  When the last
trade price is unavailable (`None`) the call raises (caught by
`order_pusher`), modelled as `none`; a zero divisor likewise raises. -/
def process_shares_size (size spread_slip : ℚ) (lastPrice : Option ℚ) : Option ℤ :=
  match lastPrice with
  | none => none
  | some p => if p + spread_slip = 0 then none else some (pyInt (size / (p + spread_slip)))

/-- The `size` field of the `OrderArgs` built by `TradingBot.order_pusher`:
`process_shares_size() / 2.05`. -/
def order_size (size spread_slip : ℚ) (lastPrice : Option ℚ) : Option ℚ :=
  (process_shares_size size spread_slip lastPrice).map (fun n => (n : ℚ) / (2.05 : ℚ))

/-- `TradingBot.cancel_order`: reads the stored id of the side, attempts
the cancellation, and catches any failure, notifying either way; the state
is never changed (ids are not cleared). -/
def cancel_order (s : BotState) (sd : QSide) (ok : Bool) : List Event :=
  if ok then [Event.cancelOk sd (getOrderId s sd)] else [Event.cancelErr sd]

/-- The flatten sequence of `main_loop`, identical in both branches that
leave a position: `for side in ['ask', 'bid']: self.cancel_order(side)`
followed by `self.is_position = False`. -/
def quotingToFlat (s : BotState) (cA cB : Bool) : BotState × List Event :=
  ({ s with is_position := false },
    cancel_order s QSide.ask cA ++ cancel_order s QSide.bid cB)

/-- The state effect of one `order_pusher` call: on success the returned
order id is stored via `setattr(self, f'order_id_{side}', order_id)`; on
any exception the error is notified and the state is left unchanged. -/
def place_order (s : BotState) (sd : QSide) (result : Option String) : BotState × List Event :=
  match result with
  | some oid => (setOrderId s sd oid, [Event.placed sd oid])
  | none => (s, [Event.placeErr sd])

/-- `TradingBot.update_prices`: fetch the order book; return `False` if the
fetch fails or either side is empty; otherwise assign
`bid_price = round(second-highest bid, 4)` and then
`ask_price = round(second-lowest ask, 4)`.  Indexing `[1]` raises on a
one-level side; the exception is caught and `False` returned — but the
`bid_price` assignment has already happened when the ask side raises. -/
def update_prices (s : BotState) (book : Option (List (ℚ × ℚ) × List (ℚ × ℚ))) :
    Bool × BotState :=
  match book with
  | none => (false, s)
  | some (bids, asks) =>
    if bids.isEmpty || asks.isEmpty then (false, s)
    else
      match (List.insertionSort (fun a b : ℚ × ℚ => b.1 ≤ a.1) bids)[1]? with
      | none => (false, s)
      | some b2 =>
        let s1 := { s with bid_price := round4 b2.1 }
        match (List.insertionSort (fun a b : ℚ × ℚ => a.1 ≤ b.1) asks)[1]? with
        | none => (false, s1)
        | some a2 => (true, { s1 with ask_price := round4 a2.1 })

/-- The `if not self.is_position and self.update_prices():` block of
`main_loop`: when flat and the price refresh succeeds, push the ask order,
then the bid order, then set `is_position = True` unconditionally. -/
def tryQuote (s : BotState) (env : CycleEnv) : BotState × List Event :=
  if s.is_position then (s, [])
  else
    match update_prices s env.book with
    | (false, s1) => (s1, [])
    | (true, s1) =>
      let r1 := place_order s1 QSide.ask env.placeAsk
      let r2 := place_order r1.1 QSide.bid env.placeBid
      ({ r2.1 with is_position := true }, r1.2 ++ r2.2)

/-- The heartbeat check at the top of each cycle:
`if now - last_heartbeat >= 60: notify; last_heartbeat = now`. -/
def heartbeatStep (last now : ℤ) : ℤ × List Event :=
  if 60 ≤ now - last then (now, [Event.heartbeat now]) else (last, [])

/-- The body of one `main_loop` cycle after the heartbeat check, starting
from the state in which `act_price` has been refreshed. -/
def cycleBody (s0 : BotState) (env : CycleEnv) : BotState × List Event :=
  if env.favorable = false then
    if s0.is_position then
      let r := quotingToFlat s0 env.cancelAskOk env.cancelBidOk
      (r.1, Event.unfavorable :: r.2)
    else (s0, [Event.unfavorable])
  else
    let r1 :=
      if env.price2 ≠ s0.act_price ∧ s0.is_position = true then
        let r := quotingToFlat s0 env.cancelAskOk env.cancelBidOk
        (r.1, Event.priceChange s0.act_price env.price2 :: r.2)
      else (s0, ([] : List Event))
    let r2 := tryQuote r1.1 env
    (r2.1, r1.2 ++ r2.2)

/-- The loop-carried state of `main_loop`: the bot fields plus the local
`last_heartbeat`. -/
structure LoopState where
  bot : BotState
  last_heartbeat : ℤ
deriving DecidableEq, Repr

/-- One full cycle of `main_loop`: heartbeat check, then
`self.act_price = self.get_last_trade_price()`, then the favorability
branch. -/
def cycle (st : LoopState) (now : ℤ) (env : CycleEnv) : LoopState × List Event :=
  let hb := heartbeatStep st.last_heartbeat now
  let r := cycleBody { st.bot with act_price := env.price1 } env
  (⟨r.1, hb.1⟩, hb.2 ++ r.2)

/-- Run the loop for one cycle per environment record, the clock advancing
one second per cycle. -/
def runAux (st : LoopState) (now : ℤ) : List CycleEnv → LoopState × List Event
  | [] => (st, [])
  | e :: es =>
    let r1 := cycle st now e
    let r2 := runAux r1.1 (now + 1) es
    (r2.1, r1.2 ++ r2.2)

/-- `TradingBot.main_loop` started at wall-clock time `t0`:
`last_heartbeat = 0`, one initial `update_prices()` call (with response
`initBook`), then the cycles. -/
def main_loop_run (initBook : Option (List (ℚ × ℚ) × List (ℚ × ℚ)))
    (t0 : ℤ) (envs : List CycleEnv) : LoopState × List Event :=
  runAux ⟨(update_prices initState initBook).2, 0⟩ t0 envs

def isHeartbeat : Event → Bool
  | .heartbeat _ => true
  | _ => false

/-- The times at which heartbeat notifications were sent. -/
def heartbeatTimes : List Event → List ℤ
  | [] => []
  | Event.heartbeat t :: rest => t :: heartbeatTimes rest
  | _ :: rest => heartbeatTimes rest

def isCancelEvent : Event → Bool
  | .cancelOk _ _ => true
  | .cancelErr _ => true
  | _ => false

def isPlacedEvent : Event → Bool
  | .placed _ _ => true
  | _ => false

/-! Claim theorems. -/

/-- Claim C1 (code-bug evaluation): on the snapshot built from bids
`[(0.50, 100), (0.49, 50)]` and asks `[(0.52, 10)]`, the near-spread bid
volume is 150 and the best (highest) bid is 0.50 with size 100, so the
claim (and the spec) require `best_bid_concentration = 100/150 = 2/3`;
the code instead computes `50/150 = 1/3` because the frame is sorted
ascending by price and `bids.iloc[0]` is the lowest-price bid.  The ask
side is unaffected: `asks.iloc[0]` is the lowest, i.e. best, ask. -/
theorem C1_concentration_bug_eval :
    (calculate_metrics defaultConfig (snapshot [(1/2, 100), (49/100, 50)] [(13/25, 10)])).map
      Metrics.best_bid_concentration = some (1/3) ∧
    (calculate_metrics defaultConfig (snapshot [(1/2, 100), (49/100, 50)] [(13/25, 10)])).map
      Metrics.best_bid_price = some (1/2) ∧
    (calculate_metrics defaultConfig (snapshot [(1/2, 100), (49/100, 50)] [(13/25, 10)])).map
      Metrics.bid_volume = some 150 ∧
    ((100 : ℚ) / 150 ≠ (1 : ℚ) / 3) := by decide

/-- The C3 scenario snapshot: bid levels `[(0.50,100),(0.49,50),(0.48,20)]`
and ask levels `[(0.52,10),(0.53,40),(0.54,60)]`. -/
def C3snapshot : List Row :=
  snapshot [(1/2, 100), (49/100, 50), (12/25, 20)] [(13/25, 10), (53/100, 40), (27/50, 60)]

/-- The IEEE-754 binary64 value nearest to 0.52, as an exact rational:
0.52 lies in the binade [1/2, 1) where doubles are the multiples of
2^-53, and rounding 0.52 * 2^53 to the nearest integer gives
4683743612465316, i.e. 1170935903116329 / 2^51.  The program stores and
compares prices as binary64, so this is the best-ask price it works
with. -/
def fl052 : ℚ := 1170935903116329 / 2251799813685248

/-- The IEEE-754 binary64 value nearest to the literal 0.02 (the rule 2
and rule 4 spread threshold of `is_market_favorable`): 0.02 lies in the
binade [2^-6, 2^-5) where doubles are the multiples of 2^-58, giving
5764607523034235 / 2^58, slightly above 1/50. -/
def fl002 : ℚ := 5764607523034235 / 288230376151711744

/-- The metrics dictionary the program computes for the C3 scenario
snapshot under its actual binary64 arithmetic, each float written as the
exact rational it denotes.  Derivation (every step follows IEEE-754
round-to-nearest-even):
* `best_bid = 0.5` (exact) and `best_ask = fl052`;
* `spread = fl052 - 0.5` — the subtraction is exact (both operands are
  multiples of 2^-53 and the difference fits in 53 bits), giving
  45035996273705 / 2^51 = 0.020000000000000018, strictly above both 1/50
  and `fl002`;
* `near_spread_threshold = spread * 1.5` is exact
  (135107988821115 / 2^52), the two filter cutoffs 0.47 and 0.55 are
  exact subtractions or additions, and all three levels pass on each
  side, so `bid_volume = 170` and `ask_volume = 110` exactly (small
  integer sums);
* `volume_imbalance = fl(170 / 110)` = 3480054257513565 / 2^51, the
  double nearest 17/11;
* `bid_pressure = ((100/50) * 1 + (50/20) * (1/2)) / 2 = 1.625` with
  every operation exact; `ask_pressure` rounds once in
  `0.25 + fl(40/60) * 0.5`, giving 2627099782632789 / 2^53;
* `bids.iloc[0]` is the lowest bid (0.48, 20) in the ascending frame, so
  `best_bid_concentration = fl(20/170)` = 4238682002231055 / 2^55, and
  `best_ask_concentration = fl(10/110)` = 3275345183542179 / 2^55.
At these values every comparison of the rule cascade has the same outcome
whether the thresholds are the exact literals of `classify` or their
binary64 roundings — each margin is many orders of magnitude larger than
the representation error — so `classify` applied to this record is the
verdict of the program. -/
def C3floatMetrics : Metrics :=
  ⟨45035996273705 / 2251799813685248,
    2296835809958953 / 4503599627370496,
    some (3480054257513565 / 2251799813685248),
    13/8,
    2627099782632789 / 9007199254740992,
    4238682002231055 / 36028797018963968,
    3275345183542179 / 36028797018963968,
    1/2, fl052, 170, 110⟩

/-- Claim C3 counterexample: under the program's binary64 arithmetic the
scenario spread is `fl052 - 0.5 = 0.020000000000000018 > 0.02` (0.52 is
not exactly representable), so rule 4 of the cascade fires — spread above
0.02 with `abs(volume_imbalance - 1) = 0.545 > 0.5` — and the program
returns the wide-spread-with-imbalance reason, not the claimed neutral
one reached when rules 1 through 5 all fail.  The first conjuncts pin the
float constants: `fl052` is within half an ulp of 13/25 and `fl002`
within half an ulp of 1/50, the float spread is exactly `fl052 - 1/2`,
and it exceeds both 1/50 and `fl002` while staying within 2^-55 of 1/50;
the imbalance is within 2^-52 of 17/11. -/
theorem C3_float_wide_spread_counterexample :
    |fl052 - 13/25| < 1/18014398509481984 ∧
    |fl002 - 1/50| < 1/576460752303423488 ∧
    C3floatMetrics.spread = fl052 - 1/2 ∧
    (1 : ℚ)/50 < C3floatMetrics.spread ∧ fl002 < C3floatMetrics.spread ∧
    |C3floatMetrics.spread - 1/50| < 1/36028797018963968 ∧
    C3floatMetrics.bid_volume = 170 ∧ C3floatMetrics.ask_volume = 110 ∧
    C3floatMetrics.volume_imbalance = some (3480054257513565 / 2251799813685248) ∧
    |(3480054257513565 : ℚ) / 2251799813685248 - 17/11| < 1/4503599627370496 ∧
    classify defaultConfig C3floatMetrics = (false, Reason.wideSpreadImbalance) ∧
    ((false, Reason.wideSpreadImbalance) : Bool × Reason) ≠ (false, Reason.neutral) := by
  decide

/-- Claim C3 (amended): on the scenario snapshot with the default
thresholds, the near-bid volume is 170, the near-ask volume 110 and the
volume imbalance about 1.545 — but the programs binary64 spread is
0.020000000000000018, strictly greater than 0.02, so rules 1 to 3 fail
and rule 4 matches: the verdict is unfavorable with the
wide-spread-with-imbalance reason, not the neutral-conditions one.  Only
under exact arithmetic, where the spread is exactly 0.02 = 1/50, do rules
1 through 5 all fail as the claim describes, giving the neutral reason;
the market is classified unfavorable either way. -/
theorem C3_scenario_amended :
    classify defaultConfig C3floatMetrics = (false, Reason.wideSpreadImbalance) ∧
    (1 : ℚ)/50 < C3floatMetrics.spread ∧
    C3floatMetrics.bid_volume = 170 ∧ C3floatMetrics.ask_volume = 110 ∧
    C3floatMetrics.volume_imbalance = some (3480054257513565 / 2251799813685248) ∧
    |(3480054257513565 : ℚ) / 2251799813685248 - 1.545| < 1/1000 ∧
    is_market_favorable defaultConfig C3snapshot = (false, Reason.neutral) ∧
    (calculate_metrics defaultConfig C3snapshot).map Metrics.spread = some (1/50) ∧
    (calculate_metrics defaultConfig C3snapshot).map Metrics.bid_volume = some 170 ∧
    (calculate_metrics defaultConfig C3snapshot).map Metrics.ask_volume = some 110 ∧
    (calculate_metrics defaultConfig C3snapshot).map Metrics.volume_imbalance
      = some (some (17/11)) ∧
    |(17 : ℚ) / 11 - 1.545| < 1/1000 := by decide

/-- Claim C8: with `size = 100`, `last_trade_price = 0.50` and
`spread_slip = 0.01`, `process_shares_size` computes
`int(100 / 0.51) = 196` shares, and the order size submitted by
`order_pusher` is `196 / 2.05 = 3920/41 ≈ 95.6`; when the last trade price
is unavailable both fail (`none`) instead of producing a size. -/
theorem C8_quote_sizing :
    process_shares_size 100 (1/100) (some (1/2)) = some 196 ∧
    order_size 100 (1/100) (some (1/2)) = some (3920/41) ∧
    (95.6 : ℚ) < 3920/41 ∧ (3920 : ℚ)/41 < 95.61 ∧
    process_shares_size 100 (1/100) none = none ∧
    order_size 100 (1/100) none = none := by decide

/-- The per-side cumulative construction that claim C7 describes: the
running sum over the side taken in the natural sort order of the side
(given here already sorted), so that cumulative volume accumulates from
the best price outward. -/
def rowsWithCum (sd : Side) : List (ℚ × ℚ) → ℚ → List BookRow
  | [], _ => []
  | p :: rest, acc => ⟨p.1, p.2, sd, acc + p.2⟩ :: rowsWithCum sd rest (acc + p.2)

/-- The snapshot builder as described by claim C7 and spec section 4.1
(this definition follows the claim wording, for comparison with
`get_orderbook` which follows the source): the `cumulative_size` of each
side is the running sum in the natural sort order of that side — bids in
descending price order, asks in ascending price order — and the rows are
presented sorted ascending by price. -/
def get_orderbook_claimed (bids asks : List (ℚ × ℚ)) : List BookRow :=
  let bidRows := rowsWithCum Side.bid
    (List.insertionSort (fun a b : ℚ × ℚ => b.1 ≤ a.1) bids) 0
  let askRows := rowsWithCum Side.ask
    (List.insertionSort (fun a b : ℚ × ℚ => a.1 ≤ b.1) asks) 0
  List.insertionSort (fun a b : BookRow => a.price ≤ b.price) (bidRows ++ askRows)

/-- Claim C7 counterexample: for bids `[(0.50,100),(0.49,50)]` and asks
`[(0.52,10)]`, the code accumulates the bid side in ascending price order
(frame order), giving cumulative 50 at the 0.49 bid and 150 at the 0.50
bid; the claimed best-outward accumulation gives 100 at the 0.50 bid and
150 at the 0.49 bid.  The two builders disagree. -/
theorem C7_counterexample :
    get_orderbook [(1/2, 100), (49/100, 50)] [(13/25, 10)]
      = [⟨49/100, 50, Side.bid, 50⟩, ⟨1/2, 100, Side.bid, 150⟩, ⟨13/25, 10, Side.ask, 10⟩] ∧
    get_orderbook_claimed [(1/2, 100), (49/100, 50)] [(13/25, 10)]
      = [⟨49/100, 50, Side.bid, 150⟩, ⟨1/2, 100, Side.bid, 100⟩, ⟨13/25, 10, Side.ask, 10⟩] ∧
    get_orderbook [(1/2, 100), (49/100, 50)] [(13/25, 10)]
      ≠ get_orderbook_claimed [(1/2, 100), (49/100, 50)] [(13/25, 10)] := by decide

/-- Claim C10 counterexample: with the stored `bid_price = 0`, a fetched
book whose bid side has two levels and whose ask side has a single level
makes `update_prices` return `False` — but `bid_price` has already been
assigned the rounded second-best bid 0.49 when the ask-side indexing
raises, so the stored prices are not all left unchanged. -/
theorem C10_counterexample :
    (update_prices initState (some ([(1/2, 1), (49/100, 1)], [(13/25, 1)]))).1 = false ∧
    (update_prices initState (some ([(1/2, 1), (49/100, 1)], [(13/25, 1)]))).2.bid_price
      = 49/100 ∧
    initState.bid_price ≠ 49/100 := by decide

/-- Cycle environment in which the market is favorable, both trade-price
fetches return 0.50, the book has two levels per side, and both order
placements succeed. -/
def envPlaceOk : CycleEnv :=
  ⟨some (1/2), true, some (1/2), some ([(1/2, 1), (49/100, 1)], [(13/25, 1), (53/100, 1)]),
    some "a1", some "b1", true, true⟩

/-- Cycle environment in which the market is favorable and both
trade-price fetches return 0.60 (the price has moved since the previous
cycle but is stable within this cycle). -/
def envDriftStable : CycleEnv :=
  ⟨some (3/5), true, some (3/5), none, none, none, true, true⟩

/-- Claim C2 counterexample: the quote pair is placed during a cycle in
which the trade price is 0.50 (`act_price = 0.50` at placement time);
in the next cycle the live trade price is 0.60 ≠ 0.50, yet the loop
performs no cancellation at all and keeps `is_position = true`, because
`act_price` is refreshed at the top of every cycle and the drift check
compares the two fetches of the same cycle, not the placement-time
anchor. -/
theorem C2_counterexample :
    (main_loop_run none 1000000 [envPlaceOk]).1.bot.act_price = some (1/2) ∧
    (main_loop_run none 1000000 [envPlaceOk]).1.bot.is_position = true ∧
    envDriftStable.price2 = some (3/5) ∧ some ((1 : ℚ)/2) ≠ some ((3 : ℚ)/5) ∧
    (main_loop_run none 1000000 [envPlaceOk, envDriftStable]).2.filter isCancelEvent = [] ∧
    (main_loop_run none 1000000 [envPlaceOk, envDriftStable]).1.bot.is_position = true := by decide

/-- Cycle environment identical to `envPlaceOk` except that both order
placements fail. -/
def envPlaceFail : CycleEnv :=
  ⟨some (1/2), true, some (1/2), some ([(1/2, 1), (49/100, 1)], [(13/25, 1), (53/100, 1)]),
    none, none, true, true⟩

/-- Claim C4 counterexample: starting from the initial state, one cycle in
which the market is favorable, the price refresh succeeds and both order
placements fail leaves `is_position = true` while both order ids are still
the empty string — the loop sets `is_position = True` unconditionally
after the two `order_pusher` calls. -/
theorem C4_counterexample :
    (main_loop_run none 1000000 [envPlaceFail]).1.bot.is_position = true ∧
    (main_loop_run none 1000000 [envPlaceFail]).1.bot.order_id_ask = "" ∧
    (main_loop_run none 1000000 [envPlaceFail]).1.bot.order_id_bid = "" := by decide

/-- Cycle environment for an idle cycle: every network interaction fails
or is unfavorable, so the cycle does nothing but notify. -/
def idleEnv : CycleEnv := ⟨none, false, none, none, none, none, true, true⟩

/-- Claim C5 counterexample: a 125-cycle run at 1-second cadence starting
at wall-clock time 1000000 (any start time at least 60 behaves the same,
and `time.time()` is far larger) emits three heartbeats — at t, t+60 and
t+120 — not two: `last_heartbeat` starts at 0, so the very first cycle
already satisfies `now - last_heartbeat >= 60`. -/
theorem C5_counterexample :
    heartbeatTimes (main_loop_run none 1000000 (List.replicate 125 idleEnv)).2
      = [1000000, 1000060, 1000120] ∧
    (heartbeatTimes (main_loop_run none 1000000 (List.replicate 125 idleEnv)).2).length ≠ 2 := by
  decide

/-- Claim C6: the cascade is evaluated top to bottom with short-circuit on
the first matching rule: whenever the metrics of a snapshot satisfy both
rule 1 (volume imbalance above the threshold, and best-bid concentration
above 0.7 or bid pressure above the volume threshold) and rule 4 (spread
above 0.02 and volume imbalance further than 0.5 from 1), the verdict is
favorable with the strong-buy-pressure reason — rule 1 wins. -/
theorem C6_rule1_wins (cfg : AnalyzerConfig) (df : List Row) (m : Metrics)
    (hm : calculate_metrics cfg df = some m)
    (h1a : imbGT m.volume_imbalance cfg.imbalance_threshold = true)
    (h1b : (0.7 : ℚ) < m.best_bid_concentration ∨ cfg.volume_threshold < m.bid_pressure)
    (h4a : (0.02 : ℚ) < m.spread)
    (h4b : imbAbsSub1GT m.volume_imbalance 0.5 = true) :
    is_market_favorable cfg df = (true, Reason.strongBuyPressure) := by
  have hcond : (imbGT m.volume_imbalance cfg.imbalance_threshold &&
      (decide ((0.7 : ℚ) < m.best_bid_concentration) ||
        decide (cfg.volume_threshold < m.bid_pressure))) = true := by
    rw [h1a, Bool.true_and]
    rcases h1b with h | h
    · rw [decide_eq_true h]
      exact Bool.true_or _
    · rw [decide_eq_true h]
      exact Bool.or_true _
  unfold is_market_favorable
  rw [hm]
  show classify cfg m = (true, Reason.strongBuyPressure)
  unfold classify
  rw [hcond]
  simp

/-- Snapshot engineered to satisfy both rule 1 and rule 4: a single bid
(0.50, 100) and a single ask (0.60, 10). -/
def C6df : List Row := snapshot [(1/2, 100)] [(3/5, 10)]

/-- The metrics of `C6df`: spread 0.10, imbalance 10, full bid
concentration. -/
def C6metrics : Metrics := ⟨1/10, 11/20, some 10, 0, 0, 1, 1, 1/2, 3/5, 100, 10⟩

/-- Witness for C6: `C6df` satisfies both rule conditions and is
classified favorable by rule 1. -/
theorem C6_rule1_wins_witness :
    calculate_metrics defaultConfig C6df = some C6metrics ∧
    imbGT C6metrics.volume_imbalance defaultConfig.imbalance_threshold = true ∧
    ((0.7 : ℚ) < C6metrics.best_bid_concentration ∨
      defaultConfig.volume_threshold < C6metrics.bid_pressure) ∧
    ((0.02 : ℚ) < C6metrics.spread) ∧
    imbAbsSub1GT C6metrics.volume_imbalance 0.5 = true ∧
    is_market_favorable defaultConfig C6df = (true, Reason.strongBuyPressure) :=
  ⟨by decide, by decide, by decide, by decide, by decide,
    C6_rule1_wins defaultConfig C6df C6metrics (by decide) (by decide) (by decide)
      (by decide) (by decide)⟩

/-- Claim C9: when the evaluator reports the market unfavorable while a
position is held, the cycle cancels the ask order first and then the bid
order — per-order cancellation failure only produces a notification event
and does not stop the sequence — and then sets `is_position = false`
unconditionally, whatever the two cancellation outcomes were. -/
theorem C9_flatten_cancels_ask_then_bid (st : LoopState) (now : ℤ) (env : CycleEnv)
    (hpos : st.bot.is_position = true) (hfav : env.favorable = false) :
    (cycle st now env).1.bot
        = { st.bot with act_price := env.price1, is_position := false } ∧
    (cycle st now env).2 = (heartbeatStep st.last_heartbeat now).2 ++
      (Event.unfavorable ::
        (cancel_order { st.bot with act_price := env.price1 } QSide.ask env.cancelAskOk ++
          cancel_order { st.bot with act_price := env.price1 } QSide.bid env.cancelBidOk)) := by
  unfold cycle cycleBody quotingToFlat
  rw [hfav]
  simp [hpos]

/-- A quoting state with both order ids recorded. -/
def C9state : LoopState := ⟨⟨53/100, 49/100, "oa", "ob", true, some (1/2)⟩, 0⟩

/-- An unfavorable cycle in which the ask cancellation succeeds and the
bid cancellation fails. -/
def C9env : CycleEnv := ⟨some (1/2), false, none, none, none, none, true, false⟩

/-- Witness for C9 at a concrete quoting state and unfavorable cycle. -/
theorem C9_flatten_cancels_ask_then_bid_witness :
    C9state.bot.is_position = true ∧ C9env.favorable = false ∧
    ((cycle C9state 5 C9env).1.bot
        = { C9state.bot with act_price := C9env.price1, is_position := false } ∧
      (cycle C9state 5 C9env).2 = (heartbeatStep C9state.last_heartbeat 5).2 ++
        (Event.unfavorable ::
          (cancel_order { C9state.bot with act_price := C9env.price1 } QSide.ask
              C9env.cancelAskOk ++
            cancel_order { C9state.bot with act_price := C9env.price1 } QSide.bid
              C9env.cancelBidOk))) :=
  ⟨rfl, rfl, C9_flatten_cancels_ask_then_bid C9state 5 C9env rfl rfl⟩

/-- Claim C2 (amended): drift is detected by comparing the two trade-price
fetches made within the same cycle — `act_price` is refreshed at the top
of every cycle, so the comparison price is not the placement-time anchor.
When the cycle is favorable, a position is held and the second fetch
differs from the first, the cycle emits the price-change notification,
cancels both orders (ask first, then bid), and only then runs the
placement block, starting from a state with `is_position = false`. -/
theorem C2_same_cycle_drift (st : LoopState) (now : ℤ) (env : CycleEnv)
    (hfav : env.favorable = true) (hpos : st.bot.is_position = true)
    (hdrift : env.price2 ≠ env.price1) :
    (cycle st now env).2 = (heartbeatStep st.last_heartbeat now).2 ++
      (Event.priceChange env.price1 env.price2 ::
        (cancel_order { st.bot with act_price := env.price1 } QSide.ask env.cancelAskOk ++
          cancel_order { st.bot with act_price := env.price1 } QSide.bid env.cancelBidOk ++
          (tryQuote { st.bot with act_price := env.price1, is_position := false } env).2)) ∧
    (cycle st now env).1.bot
      = (tryQuote { st.bot with act_price := env.price1, is_position := false } env).1 := by
  unfold cycle cycleBody quotingToFlat
  rw [hfav]
  simp [hpos, hdrift]

/-- Favorable cycle in which the second trade-price fetch (0.60) differs
from the first (0.50), with a two-level book and successful placements. -/
def envDriftRequote : CycleEnv :=
  ⟨some (1/2), true, some (3/5), some ([(1/2, 1), (49/100, 1)], [(13/25, 1), (53/100, 1)]),
    some "a2", some "b2", true, true⟩

/-- Witness for the amended C2: concrete quoting state, favorable cycle
with a price change between the two fetches; the placement block then
re-quotes after the cancellations. -/
theorem C2_same_cycle_drift_witness :
    envDriftRequote.favorable = true ∧ C9state.bot.is_position = true ∧
    envDriftRequote.price2 ≠ envDriftRequote.price1 ∧
    ((cycle C9state 7 envDriftRequote).2 = (heartbeatStep C9state.last_heartbeat 7).2 ++
      (Event.priceChange envDriftRequote.price1 envDriftRequote.price2 ::
        (cancel_order { C9state.bot with act_price := envDriftRequote.price1 } QSide.ask
            envDriftRequote.cancelAskOk ++
          cancel_order { C9state.bot with act_price := envDriftRequote.price1 } QSide.bid
            envDriftRequote.cancelBidOk ++
          (tryQuote { C9state.bot with act_price := envDriftRequote.price1, is_position := false } envDriftRequote).2)) ∧
      (cycle C9state 7 envDriftRequote).1.bot
        = (tryQuote { C9state.bot with act_price := envDriftRequote.price1, is_position := false } envDriftRequote).1) :=
  ⟨rfl, rfl, by decide, C2_same_cycle_drift C9state 7 envDriftRequote rfl rfl (by decide)⟩

/-- Claim C10 (amended): when both sides of the fetched book are non-empty
but some side has fewer than two levels, `update_prices` returns `False`
(so the placement block is not entered and no order is placed that cycle)
and `ask_price` is left unchanged; the whole state is unchanged when the
bid side is short, but when the bid side has at least two levels and the
ask side is short, `bid_price` has already been updated to the rounded
second-best bid when the failure occurs. -/
theorem C10_update_prices_short_side (s : BotState) (bids asks : List (ℚ × ℚ))
    (hb : bids ≠ []) (ha : asks ≠ []) (hshort : bids.length < 2 ∨ asks.length < 2) :
    (update_prices s (some (bids, asks))).1 = false ∧
    (update_prices s (some (bids, asks))).2.ask_price = s.ask_price ∧
    (bids.length < 2 → (update_prices s (some (bids, asks))).2 = s) ∧
    (∀ b2, (List.insertionSort (fun a b : ℚ × ℚ => b.1 ≤ a.1) bids)[1]? = some b2 →
      (update_prices s (some (bids, asks))).2 = { s with bid_price := round4 b2.1 }) ∧
    (∀ env : CycleEnv, env.book = some (bids, asks) → ∀ s2 : BotState,
      s2.is_position = false →
      (tryQuote s2 env).2 = [] ∧ (tryQuote s2 env).1.is_position = false) := by
  rcases bids with _ | ⟨b0, bt⟩
  · exact absurd rfl hb
  rcases asks with _ | ⟨a0, ta⟩
  · exact absurd rfl ha
  have key : ∀ t : BotState, (update_prices t (some (b0 :: bt, a0 :: ta))).1 = false ∧
      (update_prices t (some (b0 :: bt, a0 :: ta))).2.ask_price = t.ask_price ∧
      ((b0 :: bt).length < 2 → (update_prices t (some (b0 :: bt, a0 :: ta))).2 = t) ∧
      (∀ b2, (List.insertionSort (fun a b : ℚ × ℚ => b.1 ≤ a.1) (b0 :: bt))[1]? = some b2 →
        (update_prices t (some (b0 :: bt, a0 :: ta))).2
          = { t with bid_price := round4 b2.1 }) ∧
      (update_prices t (some (b0 :: bt, a0 :: ta))).2.is_position = t.is_position := by
    intro t
    rcases h1 : (List.insertionSort (fun a b : ℚ × ℚ => b.1 ≤ a.1) (b0 :: bt))[1]? with _ | b2
    · have hnone : update_prices t (some (b0 :: bt, a0 :: ta)) = (false, t) := by
        simp [update_prices, h1, -List.insertionSort, -List.orderedInsert]
      rw [hnone]
      refine ⟨rfl, rfl, fun _ => rfl, ?_, rfl⟩
      intro b2 hb2
      cases hb2
    · have hbl : 2 ≤ (b0 :: bt).length := by
        by_contra hge
        have hn : (List.insertionSort (fun a b : ℚ × ℚ => b.1 ≤ a.1) (b0 :: bt))[1]? = none := by
          rw [List.getElem?_eq_none_iff, List.length_insertionSort]
          omega
        rw [hn] at h1
        cases h1
      have hal : (a0 :: ta).length < 2 := by
        rcases hshort with h | h
        · omega
        · exact h
      have h2 : (List.insertionSort (fun a b : ℚ × ℚ => a.1 ≤ b.1) (a0 :: ta))[1]? = none := by
        rw [List.getElem?_eq_none_iff, List.length_insertionSort]
        omega
      have heq : update_prices t (some (b0 :: bt, a0 :: ta))
          = (false, { t with bid_price := round4 b2.1 }) := by
        simp [update_prices, h1, h2, -List.insertionSort, -List.orderedInsert]
      rw [heq]
      refine ⟨rfl, rfl, ?_, ?_, rfl⟩
      · intro hcon
        omega
      · intro b2' hb2
        cases hb2
        rfl
  refine ⟨(key s).1, (key s).2.1, (key s).2.2.1, (key s).2.2.2.1, ?_⟩
  intro env henv s2 hs2
  rcases hu : update_prices s2 (some (b0 :: bt, a0 :: ta)) with ⟨b, s3⟩
  have hfalse := (key s2).1
  rw [hu] at hfalse
  have hpos := (key s2).2.2.2.2
  rw [hu] at hpos
  simp only at hfalse hpos
  subst hfalse
  unfold tryQuote
  rw [henv, hu, hs2]
  simp [hpos, hs2]

/-- Witness for the amended C10: a one-level bid side with a two-level ask
side makes `update_prices` fail and leaves the state unchanged. -/
theorem C10_update_prices_short_side_witness :
    ([((1 : ℚ)/2, (1 : ℚ))] : List (ℚ × ℚ)) ≠ [] ∧
    ([((13 : ℚ)/25, (1 : ℚ)), ((53 : ℚ)/100, 1)] : List (ℚ × ℚ)) ≠ [] ∧
    (([((1 : ℚ)/2, (1 : ℚ))] : List (ℚ × ℚ)).length < 2 ∨
      ([((13 : ℚ)/25, (1 : ℚ)), ((53 : ℚ)/100, 1)] : List (ℚ × ℚ)).length < 2) ∧
    (update_prices initState (some ([(1/2, 1)], [(13/25, 1), (53/100, 1)]))).1 = false ∧
    (update_prices initState (some ([(1/2, 1)], [(13/25, 1), (53/100, 1)]))).2 = initState :=
  ⟨by decide, by decide, Or.inl (by decide),
    (C10_update_prices_short_side initState [(1/2, 1)] [(13/25, 1), (53/100, 1)]
      (by decide) (by decide) (Or.inl (by decide))).1,
    (C10_update_prices_short_side initState [(1/2, 1)] [(13/25, 1), (53/100, 1)]
      (by decide) (by decide) (Or.inl (by decide))).2.2.1 (by decide)⟩

lemma heartbeatTimes_append : ∀ l1 l2 : List Event,
    heartbeatTimes (l1 ++ l2) = heartbeatTimes l1 ++ heartbeatTimes l2 := by
  intro l1 l2
  induction l1 with
  | nil => rfl
  | cons e rest ih => cases e <;> simp [heartbeatTimes, ih]

lemma heartbeatTimes_cancel_order (s : BotState) (sd : QSide) (ok : Bool) :
    heartbeatTimes (cancel_order s sd ok) = [] := by
  unfold cancel_order
  split <;> rfl

lemma heartbeatTimes_quotingToFlat (s : BotState) (cA cB : Bool) :
    heartbeatTimes (quotingToFlat s cA cB).2 = [] := by
  unfold quotingToFlat
  simp [heartbeatTimes_append, heartbeatTimes_cancel_order]

lemma heartbeatTimes_place_order (s : BotState) (sd : QSide) (r : Option String) :
    heartbeatTimes (place_order s sd r).2 = [] := by
  unfold place_order
  cases r <;> rfl

lemma heartbeatTimes_tryQuote (s : BotState) (env : CycleEnv) :
    heartbeatTimes (tryQuote s env).2 = [] := by
  unfold tryQuote
  split
  · rfl
  · split
    · rfl
    · simp [heartbeatTimes_append, heartbeatTimes_place_order]

lemma heartbeatTimes_cycleBody (s : BotState) (env : CycleEnv) :
    heartbeatTimes (cycleBody s env).2 = [] := by
  unfold cycleBody
  split
  · split
    · simp [heartbeatTimes, heartbeatTimes_quotingToFlat]
    · rfl
  · split <;>
      simp [heartbeatTimes, heartbeatTimes_append, heartbeatTimes_quotingToFlat,
        heartbeatTimes_tryQuote]

/-- The heartbeat behaviour of one cycle: a heartbeat fires at time `now`
exactly when at least 60 seconds have passed since `last_heartbeat`, and
`last_heartbeat` is then set to `now`; nothing else in the cycle emits a
heartbeat or touches `last_heartbeat`. -/
lemma cycle_heartbeat (st : LoopState) (now : ℤ) (env : CycleEnv) :
    heartbeatTimes (cycle st now env).2
      = (if 60 ≤ now - st.last_heartbeat then [now] else []) ∧
    (cycle st now env).1.last_heartbeat
      = (if 60 ≤ now - st.last_heartbeat then now else st.last_heartbeat) := by
  unfold cycle heartbeatStep
  constructor
  · split <;> simp [heartbeatTimes_append, heartbeatTimes_cycleBody, heartbeatTimes]
  · split <;> rfl

/-- Pure recurrence for the heartbeat times of a run of `n` cycles
starting at time `now` with a given `last_heartbeat`. -/
def hbSim (last now : ℤ) : ℕ → List ℤ
  | 0 => []
  | n + 1 =>
    if 60 ≤ now - last then now :: hbSim now (now + 1) n else hbSim last (now + 1) n

/-- The heartbeat times of a run depend only on the initial
`last_heartbeat`, the start time and the number of cycles — not on any
trading activity of the environments. -/
lemma runAux_heartbeat : ∀ (envs : List CycleEnv) (st : LoopState) (now : ℤ),
    heartbeatTimes (runAux st now envs).2 = hbSim st.last_heartbeat now envs.length := by
  intro envs
  induction envs with
  | nil => intro st now; rfl
  | cons e es ih =>
    intro st now
    show heartbeatTimes ((cycle st now e).2 ++ (runAux (cycle st now e).1 (now + 1) es).2)
      = hbSim st.last_heartbeat now (es.length + 1)
    rw [heartbeatTimes_append, (cycle_heartbeat st now e).1, ih,
      (cycle_heartbeat st now e).2]
    by_cases hc : 60 ≤ now - st.last_heartbeat <;> simp [hbSim, hc]

/-- Claim C5 (amended): in a 125-cycle run of the loop at 1-second cadence
started at wall-clock time 1000000 (`time.time()` is far past 60, and any
start time of at least 60 behaves identically), exactly three heartbeats
are emitted, at t, t+60 and t+120 relative times 0, 60 and 120: the first
cycle already fires because `last_heartbeat` is initialised to 0.
Consecutive heartbeats are 60 seconds apart, and the heartbeat times are
independent of the trading activity: the statement holds for every list of
125 cycle environments. -/
theorem C5_three_heartbeats (initBook : Option (List (ℚ × ℚ) × List (ℚ × ℚ)))
    (envs : List CycleEnv) (h : envs.length = 125) :
    heartbeatTimes (main_loop_run initBook 1000000 envs).2
      = [1000000, 1000060, 1000120] := by
  unfold main_loop_run
  rw [runAux_heartbeat]
  show hbSim 0 1000000 envs.length = _
  rw [h]
  decide

/-- Witness for the amended C5 at a concrete list of idle environments. -/
theorem C5_three_heartbeats_witness :
    (List.replicate 125 idleEnv).length = 125 ∧
    heartbeatTimes (main_loop_run none 1000000 (List.replicate 125 idleEnv)).2
      = [1000000, 1000060, 1000120] :=
  ⟨by simp, C5_three_heartbeats none (List.replicate 125 idleEnv) (by simp)⟩

@[simp] lemma Side.isBid_bid : Side.bid.isBid = true := rfl

@[simp] lemma Side.isBid_ask : Side.ask.isBid = false := rfl

@[simp] lemma Side.isAsk_bid : Side.bid.isAsk = false := rfl

@[simp] lemma Side.isAsk_ask : Side.ask.isAsk = true := rfl

lemma pairwise_of_map {α β : Type} {f : α → β} {R : β → β → Prop} {l : List α}
    (h : List.Pairwise R (l.map f)) : List.Pairwise (fun a b => R (f a) (f b)) l :=
  List.pairwise_map.mp h

instance : IsTotal Row (fun a b => a.price ≤ b.price) :=
  ⟨fun a b => le_total a.price b.price⟩

instance : IsTrans Row (fun a b => a.price ≤ b.price) :=
  ⟨fun _ _ _ h1 h2 => le_trans h1 h2⟩

lemma addCum_map_toRow : ∀ (l : List Row) (cb ca : ℚ),
    (addCum l cb ca).map BookRow.toRow = l := by
  intro l
  induction l with
  | nil => intro cb ca; rfl
  | cons r rest ih =>
    intro cb ca
    obtain ⟨p, sz, sd⟩ := r
    cases sd <;> simp [addCum, BookRow.toRow, ih]

/-- The rows of `get_orderbook` are sorted ascending by price across both
sides combined. -/
lemma get_orderbook_sorted (bids asks : List (ℚ × ℚ)) :
    List.Sorted (fun a b : BookRow => a.price ≤ b.price) (get_orderbook bids asks) := by
  have h := List.sorted_insertionSort (fun a b : Row => a.price ≤ b.price)
    (bids.map (fun p => Row.mk p.1 p.2 Side.bid)
      ++ asks.map (fun p => Row.mk p.1 p.2 Side.ask))
  rw [← addCum_map_toRow (List.insertionSort (fun a b : Row => a.price ≤ b.price)
    (bids.map (fun p => Row.mk p.1 p.2 Side.bid)
      ++ asks.map (fun p => Row.mk p.1 p.2 Side.ask))) 0 0] at h
  exact @pairwise_of_map BookRow Row BookRow.toRow (fun a b : Row => a.price ≤ b.price)
    (get_orderbook bids asks) h

/-- Running sums of a list starting from an accumulator. -/
def runningSumsAux (acc : ℚ) : List ℚ → List ℚ
  | [] => []
  | x :: xs => (acc + x) :: runningSumsAux (acc + x) xs

/-- Running sums of a list: element `i` is the sum of the first `i + 1`
elements. -/
def runningSums (l : List ℚ) : List ℚ := runningSumsAux 0 l

lemma addCum_bid_cum : ∀ (l : List Row) (cb ca : ℚ),
    ((addCum l cb ca).filter (fun r => r.side.isBid)).map BookRow.cumulative_size
      = runningSumsAux cb ((l.filter (fun r => r.side.isBid)).map Row.size) := by
  intro l
  induction l with
  | nil => intro cb ca; rfl
  | cons r rest ih =>
    intro cb ca
    obtain ⟨p, sz, sd⟩ := r
    cases sd <;> simp [addCum, runningSumsAux, ih]

lemma addCum_ask_cum : ∀ (l : List Row) (cb ca : ℚ),
    ((addCum l cb ca).filter (fun r => r.side.isAsk)).map BookRow.cumulative_size
      = runningSumsAux ca ((l.filter (fun r => r.side.isAsk)).map Row.size) := by
  intro l
  induction l with
  | nil => intro cb ca; rfl
  | cons r rest ih =>
    intro cb ca
    obtain ⟨p, sz, sd⟩ := r
    cases sd <;> simp [addCum, runningSumsAux, ih]

lemma addCum_bid_size : ∀ (l : List Row) (cb ca : ℚ),
    ((addCum l cb ca).filter (fun r => r.side.isBid)).map BookRow.size
      = (l.filter (fun r => r.side.isBid)).map Row.size := by
  intro l
  induction l with
  | nil => intro cb ca; rfl
  | cons r rest ih =>
    intro cb ca
    obtain ⟨p, sz, sd⟩ := r
    cases sd <;> simp [addCum, ih]

lemma addCum_ask_size : ∀ (l : List Row) (cb ca : ℚ),
    ((addCum l cb ca).filter (fun r => r.side.isAsk)).map BookRow.size
      = (l.filter (fun r => r.side.isAsk)).map Row.size := by
  intro l
  induction l with
  | nil => intro cb ca; rfl
  | cons r rest ih =>
    intro cb ca
    obtain ⟨p, sz, sd⟩ := r
    cases sd <;> simp [addCum, ih]

/-- Claim C7 (amended): for every pair of raw bid and ask level lists, the
snapshot rows are sorted ascending by price across both sides combined,
and the `cumulative_size` of each side is the running sum of that side's
sizes in the order the rows appear in the sorted frame — ascending price
order for both sides.  For asks this accumulates from the best price
outward; for bids it accumulates from the worst price toward the best, not
from the best outward as the claim states. -/
theorem C7_sorted_and_cumulative (bids asks : List (ℚ × ℚ))
    (hb : bids ≠ []) (ha : asks ≠ []) :
    List.Sorted (fun a b : BookRow => a.price ≤ b.price) (get_orderbook bids asks) ∧
    ((get_orderbook bids asks).filter (fun r => r.side.isBid)).map BookRow.cumulative_size
      = runningSums
          (((get_orderbook bids asks).filter (fun r => r.side.isBid)).map BookRow.size) ∧
    ((get_orderbook bids asks).filter (fun r => r.side.isAsk)).map BookRow.cumulative_size
      = runningSums
          (((get_orderbook bids asks).filter (fun r => r.side.isAsk)).map BookRow.size) := by
  refine ⟨get_orderbook_sorted bids asks, ?_, ?_⟩
  · unfold get_orderbook runningSums
    rw [addCum_bid_cum, addCum_bid_size]
  · unfold get_orderbook runningSums
    rw [addCum_ask_cum, addCum_ask_size]

/-- Witness for the amended C7 at the two-bid, one-ask book. -/
theorem C7_sorted_and_cumulative_witness :
    ([((1 : ℚ)/2, (100 : ℚ)), ((49 : ℚ)/100, 50)] : List (ℚ × ℚ)) ≠ [] ∧
    ([((13 : ℚ)/25, (10 : ℚ))] : List (ℚ × ℚ)) ≠ [] ∧
    (List.Sorted (fun a b : BookRow => a.price ≤ b.price)
        (get_orderbook [(1/2, 100), (49/100, 50)] [(13/25, 10)]) ∧
      ((get_orderbook [(1/2, 100), (49/100, 50)] [(13/25, 10)]).filter
          (fun r => r.side.isBid)).map BookRow.cumulative_size
        = runningSums
            (((get_orderbook [(1/2, 100), (49/100, 50)] [(13/25, 10)]).filter
              (fun r => r.side.isBid)).map BookRow.size) ∧
      ((get_orderbook [(1/2, 100), (49/100, 50)] [(13/25, 10)]).filter
          (fun r => r.side.isAsk)).map BookRow.cumulative_size
        = runningSums
            (((get_orderbook [(1/2, 100), (49/100, 50)] [(13/25, 10)]).filter
              (fun r => r.side.isAsk)).map BookRow.size)) :=
  ⟨by decide, by decide,
    C7_sorted_and_cumulative [(1/2, 100), (49/100, 50)] [(13/25, 10)]
      (by decide) (by decide)⟩

/-- An environment is id-clean when every successful order placement in it
returns a non-empty order id (exchange ids are never empty strings). -/
def envGoodB (e : CycleEnv) : Bool :=
  (match e.placeAsk with
    | some oid => oid != ""
    | none => true) &&
  (match e.placeBid with
    | some oid => oid != ""
    | none => true)

lemma envGoodB_ask {e : CycleEnv} (hg : envGoodB e = true) {oid : String}
    (h : e.placeAsk = some oid) : oid ≠ "" := by
  unfold envGoodB at hg
  rw [h] at hg
  rw [Bool.and_eq_true] at hg
  simpa using hg.1

lemma envGoodB_bid {e : CycleEnv} (hg : envGoodB e = true) {oid : String}
    (h : e.placeBid = some oid) : oid ≠ "" := by
  unfold envGoodB at hg
  rw [h] at hg
  rw [Bool.and_eq_true] at hg
  simpa using hg.2

/-- At least one of the two order-id fields is non-empty. -/
def someId (s : BotState) : Prop := s.order_id_ask ≠ "" ∨ s.order_id_bid ≠ ""

lemma update_prices_ids (s : BotState) (book : Option (List (ℚ × ℚ) × List (ℚ × ℚ))) :
    (update_prices s book).2.order_id_ask = s.order_id_ask ∧
    (update_prices s book).2.order_id_bid = s.order_id_bid := by
  unfold update_prices
  rcases book with _ | ⟨bids, asks⟩
  · exact ⟨rfl, rfl⟩
  · dsimp only
    split
    · exact ⟨rfl, rfl⟩
    · split
      · exact ⟨rfl, rfl⟩
      · split
        · exact ⟨rfl, rfl⟩
        · exact ⟨rfl, rfl⟩

lemma tryQuote_ids (s : BotState) (env : CycleEnv) (hg : envGoodB env = true) :
    ((tryQuote s env).1.order_id_ask = s.order_id_ask ∨
      (tryQuote s env).1.order_id_ask ≠ "") ∧
    ((tryQuote s env).1.order_id_bid = s.order_id_bid ∨
      (tryQuote s env).1.order_id_bid ≠ "") ∧
    ((∃ sd oid, Event.placed sd oid ∈ (tryQuote s env).2) → someId (tryQuote s env).1) := by
  unfold tryQuote
  split
  · refine ⟨Or.inl rfl, Or.inl rfl, ?_⟩
    rintro ⟨sd, oid, h⟩
    simp at h
  · rcases hu : update_prices s env.book with ⟨b, s1⟩
    have hids := update_prices_ids s env.book
    rw [hu] at hids
    cases b
    · refine ⟨Or.inl hids.1, Or.inl hids.2, ?_⟩
      rintro ⟨sd, oid, h⟩
      simp at h
    · rcases hA : env.placeAsk with _ | oa <;> rcases hB : env.placeBid with _ | ob
      · refine ⟨?_, ?_, ?_⟩
        · simp [place_order]
          exact Or.inl hids.1
        · simp [place_order]
          exact Or.inl hids.2
        · rintro ⟨sd, oid, h⟩
          simp [place_order] at h
      · refine ⟨?_, ?_, ?_⟩
        · simp [place_order]
          exact Or.inl hids.1
        · simp [place_order, setOrderId]
          exact Or.inr (envGoodB_bid hg hB)
        · intro _
          exact Or.inr (by simp [place_order, setOrderId]; exact envGoodB_bid hg hB)
      · refine ⟨?_, ?_, ?_⟩
        · simp [place_order, setOrderId]
          exact Or.inr (envGoodB_ask hg hA)
        · simp [place_order, setOrderId]
          exact Or.inl hids.2
        · intro _
          exact Or.inl (by simp [place_order, setOrderId]; exact envGoodB_ask hg hA)
      · refine ⟨?_, ?_, ?_⟩
        · simp [place_order, setOrderId]
          exact Or.inr (envGoodB_ask hg hA)
        · simp [place_order, setOrderId]
          exact Or.inr (envGoodB_bid hg hB)
        · intro _
          exact Or.inr (by simp [place_order, setOrderId]; exact envGoodB_bid hg hB)

lemma placed_not_mem_cancel_order (s : BotState) (sd2 : QSide) (ok : Bool)
    (sd : QSide) (oid : String) : Event.placed sd oid ∉ cancel_order s sd2 ok := by
  unfold cancel_order
  split <;> simp

lemma placed_not_mem_quotingToFlat (s : BotState) (cA cB : Bool)
    (sd : QSide) (oid : String) : Event.placed sd oid ∉ (quotingToFlat s cA cB).2 := by
  unfold quotingToFlat
  simp [placed_not_mem_cancel_order]

lemma placed_not_mem_heartbeatStep (last now : ℤ) (sd : QSide) (oid : String) :
    Event.placed sd oid ∉ (heartbeatStep last now).2 := by
  unfold heartbeatStep
  split <;> simp

lemma cycleBody_ids (s : BotState) (env : CycleEnv) (hg : envGoodB env = true) :
    ((cycleBody s env).1.order_id_ask = s.order_id_ask ∨
      (cycleBody s env).1.order_id_ask ≠ "") ∧
    ((cycleBody s env).1.order_id_bid = s.order_id_bid ∨
      (cycleBody s env).1.order_id_bid ≠ "") ∧
    ((∃ sd oid, Event.placed sd oid ∈ (cycleBody s env).2) →
      someId (cycleBody s env).1) := by
  unfold cycleBody
  split
  · split
    · refine ⟨Or.inl rfl, Or.inl rfl, ?_⟩
      rintro ⟨sd, oid, h⟩
      rw [List.mem_cons] at h
      rcases h with h | h
      · cases h
      · exact absurd h (placed_not_mem_quotingToFlat _ _ _ _ _)
    · refine ⟨Or.inl rfl, Or.inl rfl, ?_⟩
      rintro ⟨sd, oid, h⟩
      simp at h
  · split
    · have h3 := tryQuote_ids { s with is_position := false } env hg
      refine ⟨h3.1, h3.2.1, ?_⟩
      rintro ⟨sd, oid, h⟩
      rw [List.mem_append] at h
      rcases h with h | h
      · rw [List.mem_cons] at h
        rcases h with h | h
        · cases h
        · exact absurd h (placed_not_mem_quotingToFlat _ _ _ _ _)
      · exact h3.2.2 ⟨sd, oid, h⟩
    · have h3 := tryQuote_ids s env hg
      refine ⟨h3.1, h3.2.1, ?_⟩
      rintro ⟨sd, oid, h⟩
      exact h3.2.2 ⟨sd, oid, by simpa using h⟩

lemma cycle_ids (st : LoopState) (now : ℤ) (env : CycleEnv) (hg : envGoodB env = true) :
    ((cycle st now env).1.bot.order_id_ask = st.bot.order_id_ask ∨
      (cycle st now env).1.bot.order_id_ask ≠ "") ∧
    ((cycle st now env).1.bot.order_id_bid = st.bot.order_id_bid ∨
      (cycle st now env).1.bot.order_id_bid ≠ "") ∧
    ((∃ sd oid, Event.placed sd oid ∈ (cycle st now env).2) →
      someId (cycle st now env).1.bot) := by
  have h := cycleBody_ids { st.bot with act_price := env.price1 } env hg
  refine ⟨h.1, h.2.1, ?_⟩
  rintro ⟨sd, oid, hmem⟩
  show someId (cycleBody { st.bot with act_price := env.price1 } env).1
  have hmem2 : Event.placed sd oid
      ∈ (heartbeatStep st.last_heartbeat now).2 ++
        (cycleBody { st.bot with act_price := env.price1 } env).2 := hmem
  rw [List.mem_append] at hmem2
  rcases hmem2 with h1 | h2
  · exact absurd h1 (placed_not_mem_heartbeatStep _ _ _ _)
  · exact h.2.2 ⟨sd, oid, h2⟩

lemma cycle_preserves_someId (st : LoopState) (now : ℤ) (env : CycleEnv)
    (hg : envGoodB env = true) (h : someId st.bot) : someId (cycle st now env).1.bot := by
  rcases cycle_ids st now env hg with ⟨ha, hb2, _⟩
  rcases h with h | h
  · rcases ha with ha | ha
    · exact Or.inl (by rw [ha]; exact h)
    · exact Or.inl ha
  · rcases hb2 with hb2 | hb2
    · exact Or.inr (by rw [hb2]; exact h)
    · exact Or.inr hb2

lemma runAux_preserves_someId : ∀ (envs : List CycleEnv) (st : LoopState) (now : ℤ),
    (∀ e ∈ envs, envGoodB e = true) → someId st.bot →
    someId (runAux st now envs).1.bot := by
  intro envs
  induction envs with
  | nil => intro st now _ h; exact h
  | cons e es ih =>
    intro st now hg h
    show someId (runAux (cycle st now e).1 (now + 1) es).1.bot
    exact ih _ _ (fun x hx => hg x (List.mem_cons_of_mem _ hx))
      (cycle_preserves_someId st now e (hg e (List.mem_cons_self _ _)) h)

lemma runAux_placed_someId : ∀ (envs : List CycleEnv) (st : LoopState) (now : ℤ),
    (∀ e ∈ envs, envGoodB e = true) →
    (∃ sd oid, Event.placed sd oid ∈ (runAux st now envs).2) →
    someId (runAux st now envs).1.bot := by
  intro envs
  induction envs with
  | nil =>
    rintro st now _ ⟨sd, oid, h⟩
    simp [runAux] at h
  | cons e es ih =>
    rintro st now hg ⟨sd, oid, h⟩
    have hsplit : Event.placed sd oid ∈ (cycle st now e).2 ∨
        Event.placed sd oid ∈ (runAux (cycle st now e).1 (now + 1) es).2 := by
      have heq : (runAux st now (e :: es)).2
          = (cycle st now e).2 ++ (runAux (cycle st now e).1 (now + 1) es).2 := rfl
      rw [heq] at h
      exact List.mem_append.mp h
    show someId (runAux (cycle st now e).1 (now + 1) es).1.bot
    rcases hsplit with h1 | h2
    · exact runAux_preserves_someId es _ _ (fun x hx => hg x (List.mem_cons_of_mem _ hx))
        ((cycle_ids st now e (hg e (List.mem_cons_self _ _))).2.2 ⟨sd, oid, h1⟩)
    · exact ih _ _ (fun x hx => hg x (List.mem_cons_of_mem _ hx)) ⟨sd, oid, h2⟩

/-- Claim C4 (amended): in every run of the loop whose environments only
ever return non-empty ids for successful placements, once some `placed`
notification has occurred — i.e. some `order_pusher` call succeeded and
recorded its id — the two order-id fields are never both empty again (ids
are recorded on success and never cleared).  The unconditional invariant of
the claim fails: `is_position` is set to true even when both placements of
a Flat-to-Quoting transition fail, in which case both ids can still be
empty (see the counterexample). -/
theorem C4_some_id_after_successful_place
    (initBook : Option (List (ℚ × ℚ) × List (ℚ × ℚ))) (t0 : ℤ) (envs : List CycleEnv)
    (hg : ∀ e ∈ envs, envGoodB e = true)
    (hplaced : ∃ sd oid, Event.placed sd oid ∈ (main_loop_run initBook t0 envs).2) :
    (main_loop_run initBook t0 envs).1.bot.order_id_ask ≠ "" ∨
    (main_loop_run initBook t0 envs).1.bot.order_id_bid ≠ "" :=
  runAux_placed_someId envs _ t0 hg hplaced

/-- Witness for the amended C4: a run with one successful quoting cycle
ends with a non-empty order id. -/
theorem C4_some_id_after_successful_place_witness :
    (∀ e ∈ [envPlaceOk], envGoodB e = true) ∧
    (∃ sd oid, Event.placed sd oid ∈ (main_loop_run none 1000000 [envPlaceOk]).2) ∧
    ((main_loop_run none 1000000 [envPlaceOk]).1.bot.order_id_ask ≠ "" ∨
      (main_loop_run none 1000000 [envPlaceOk]).1.bot.order_id_bid ≠ "") :=
  ⟨by decide, ⟨QSide.ask, "a1", by decide⟩,
    C4_some_id_after_successful_place none 1000000 [envPlaceOk] (by decide)
      ⟨QSide.ask, "a1", by decide⟩⟩

end PolymarketMM
